import Mathlib

/-!
Verification of `scripts/generate_psa_constants.py`.

The script reads a C header line by line, classifies `#define`d macro names
into nine category buckets, and renders sorted code fragments that are
interpolated into a fixed C template.  This file gives a shallow embedding of
the line parser (the regular expression `definition_re`, including the exact
greedy/backtracking behaviour of Python's `re.match` on this pattern), the
classifier `MacroCollector.read_line`, the fragment renderers, and the
file-level orchestration `generate_psa_constants`, and proves the documented
properties about them.

Strings are modelled through their underlying character lists; Python string
operations (`startswith`, `endswith`, slicing, `sorted`, `str.join`) are
embedded as executable functions on `String`/`List Char`.
-/

namespace PsaGen

/-! ### Character classes

`spaceCh` is Python's `\s` and `wordCh` is Python's `\w`, restricted to the
ASCII range in which all macro text lives. -/

def spaceCh (c : Char) : Bool :=
  c == ' ' || c == '\t' || c == '\n' || c == '\x0b' || c == '\x0c' || c == '\r'

def wordCh (c : Char) : Bool := c.isAlphanum || c == '_'

/-- Predicate `listLeads p s` holds when `p` is a prefix of `s` (Python `s.startswith(p)`
read off character by character). -/
def listLeads : List Char → List Char → Bool
  | [], _ => true
  | _ :: _, [] => false
  | a :: p, b :: s => a == b && listLeads p s

/-- Predicate `listHas pat s` holds when `pat` occurs as a contiguous substring of `s`
(Python `pat in s`). -/
def listHas (pat : List Char) : List Char → Bool
  | [] => pat.isEmpty
  | c :: t => listLeads pat (c :: t) || listHas pat t

/-- Python `s.startswith(p)`. -/
def strStarts (s p : String) : Bool := listLeads p.data s.data

/-- Python `s.endswith(p)`. -/
def strEnds (s p : String) : Bool := listLeads p.data.reverse s.data.reverse

/-- Python slice `s[:n]`. -/
def strTake (s : String) (n : Nat) : String := ⟨s.data.take n⟩

/-- Python slice `s[n:]`. -/
def strDrop (s : String) (n : Nat) : String := ⟨s.data.drop n⟩

/-! ### The macro-definition pattern

`definition_re = r'\s*#\s*define\s+(\w+)(?:\s+|\((\w+)\)\s*)(.+)(?:/[*/])?'`

`parseLine` implements `re.match(definition_re, line)` exactly, including the
backtracking behaviour of the greedy quantifiers:

* the leading `\s*`, `#`, `\s*`, `define` part is deterministic because `#`
  and `d` are not whitespace;
* the macro name is the maximal `\w+` run (word characters are neither
  whitespace nor `(`, so shortening the name can never help);
* which alternative of `(?:\s+|\((\w+)\)\s*)` applies is decided by the first
  character after the name (whitespace vs `(`);
* `(.+)` takes the maximal run of non-newline characters, after backtracking
  the preceding whitespace quantifier just far enough that at least one
  non-newline character is available; the trailing `(?:/[*/])?` can always
  match the empty string, so it never strips anything (it is dead). -/

/-- Index of the last character of `l` that is not a newline, if any. -/
def lastNonNl : List Char → Option Nat
  | [] => none
  | c :: t =>
    match lastNonNl t with
    | some j => some (j + 1)
    | none => if c != '\n' then some 0 else none

/-- Matches `\s{minWs,}(.+)(?:/[*/])?` against `t` with Python's greedy
semantics: the whitespace run keeps as many characters as possible while
leaving a non-newline character for `.+`. -/
def defBody (t : List Char) (minWs : Nat) : Option String :=
  let k := (t.takeWhile spaceCh).length
  match lastNonNl (t.take (k + 1)) with
  | none => none
  | some j =>
    if minWs ≤ j then some ⟨(t.drop j).takeWhile (fun c => c != '\n')⟩ else none

/-- Python `re.match(definition_re, line)`, returning
`(macro name, optional parameter name, definition text)`. -/
def parseLine (line : String) : Option (String × Option String × String) :=
  match line.data.dropWhile spaceCh with
  | '#' :: l1 =>
    let l2 := l1.dropWhile spaceCh
    if listLeads ['d', 'e', 'f', 'i', 'n', 'e'] l2 then
      match l2.drop 6 with
      | [] => none
      | c :: _ =>
        if spaceCh c then
          let l4 := (l2.drop 6).dropWhile spaceCh
          let nm := l4.takeWhile wordCh
          if nm.isEmpty then none
          else
            match l4.drop nm.length with
            | [] => none
            | r :: rr =>
              if spaceCh r then
                (defBody (r :: rr) 1).map (fun d => (⟨nm⟩, none, d))
              else if r == '(' then
                let pw := rr.takeWhile wordCh
                if pw.isEmpty then none
                else
                  match rr.drop pw.length with
                  | ')' :: r2 => (defBody r2 0).map (fun d => (⟨nm⟩, some ⟨pw⟩, d))
                  | _ => none
              else none
        else none
    else none
  | _ => none

/-! ### Hash-algorithm detection

`re.search(r'0x010000[0-9A-Fa-f]{2}', definition)`. -/

def hexDig (c : Char) : Bool :=
  ('0' ≤ c && c ≤ '9') || ('A' ≤ c && c ≤ 'F') || ('a' ≤ c && c ≤ 'f')

/-- Does the pattern `0x010000[0-9A-Fa-f]{2}` match at the head of `l`? -/
def hashHere : List Char → Bool
  | '0' :: 'x' :: '0' :: '1' :: '0' :: '0' :: '0' :: '0' :: a :: b :: _ =>
    hexDig a && hexDig b
  | _ => false

/-- Does the pattern `0x010000[0-9A-Fa-f]{2}` match anywhere in `l`? -/
def hashSearch : List Char → Bool
  | [] => false
  | c :: t => hashHere (c :: t) || hashSearch t

/-! ### The collector state -/

/-- The nine category buckets of `MacroCollector.__init__`.  Python sets are
modelled as duplicate-free lists in insertion order; the two dicts are
modelled as association lists in insertion order. -/
structure MacroCollector where
  statuses : List String
  key_types : List String
  key_types_from_curve : List (String × String)
  ecc_curves : List String
  algorithms : List String
  hash_algorithms : List String
  block_cipher_padding_modes : List String
  algorithms_from_hash : List (String × String)
  key_usages : List String
deriving DecidableEq, Repr

/-- Python `MacroCollector()`: all nine buckets empty. -/
def emptyCollector : MacroCollector := ⟨[], [], [], [], [], [], [], [], []⟩

/-- Python `set.add`: a no-op when the element is already present. -/
def addName (s : List String) (n : String) : List String :=
  if n ∈ s then s else s ++ [n]

/-- First value bound to key `k` in the association list, if any. -/
def dictLookup (d : List (String × String)) (k : String) : Option String :=
  match d with
  | [] => none
  | (a, b) :: t => if a = k then some b else dictLookup t k

/-- Python `d[k] = v`: replaces the value in place when the key is present,
appends otherwise. -/
def dictInsert (d : List (String × String)) (k v : String) : List (String × String) :=
  if (dictLookup d k).isSome then
    d.map (fun p => if p.1 = k then (k, v) else p)
  else d ++ [(k, v)]

/-- Keys of an association list. -/
def dictKeys (d : List (String × String)) : List String := d.map Prod.fst

/-- Python `d[k]` for a key known to be present (arbitrary default otherwise). -/
def dictGet (d : List (String × String)) (k : String) : String :=
  (dictLookup d k).getD ""

/-! ### The classifier -/

/-- Method `MacroCollector.read_line`: parse one header line and file the macro name
into its category bucket, translated clause by clause from the `if`/`elif`
chain of the source. -/
def read_line (st : MacroCollector) (line : String) : MacroCollector :=
  match parseLine line with
  | none => st
  | some (name, parameter, definition) =>
    if strEnds name "_FLAG" || strEnds name "MASK" then
      -- Macro only to build actual values
      st
    else if (strStarts name "PSA_ERROR_" || name == "PSA_SUCCESS") && parameter.isNone then
      { st with statuses := addName st.statuses name }
    else if strStarts name "PSA_KEY_TYPE_" && parameter.isNone then
      { st with key_types := addName st.key_types name }
    else if strStarts name "PSA_KEY_TYPE_" && parameter == some "curve" then
      { st with key_types_from_curve :=
                  dictInsert st.key_types_from_curve name
                    (strTake name 13 ++ "IS_" ++ strDrop name 13) }
    else if strStarts name "PSA_ECC_CURVE_" && parameter.isNone then
      { st with ecc_curves := addName st.ecc_curves name }
    else if strStarts name "PSA_ALG_BLOCK_CIPHER_PAD_" && parameter.isNone then
      { st with block_cipher_padding_modes := addName st.block_cipher_padding_modes name }
    else if strStarts name "PSA_ALG_" && parameter.isNone then
      if name == "PSA_ALG_BLOCK_CIPHER_BASE" || name == "PSA_ALG_ECDSA_BASE" ||
          name == "PSA_ALG_RSA_PKCS1V15_SIGN_BASE" then
        -- Ad hoc skipping of duplicate names for some numerical values
        st
      else
        -- Ad hoc detection of hash algorithms
        if hashSearch definition.data then
          { st with algorithms := addName st.algorithms name,
                    hash_algorithms := addName st.hash_algorithms name }
        else
          { st with algorithms := addName st.algorithms name }
    else if strStarts name "PSA_ALG_" && parameter == some "hash_alg" then
      -- A naming irregularity for PSA_ALG_DSA and PSA_ALG_ECDSA
      if name == "PSA_ALG_DSA" || name == "PSA_ALG_ECDSA" then
        { st with algorithms_from_hash :=
                    dictInsert st.algorithms_from_hash name
                      (strTake name 8 ++ "IS_RANDOMIZED_" ++ strDrop name 8) }
      else
        { st with algorithms_from_hash :=
                    dictInsert st.algorithms_from_hash name
                      (strTake name 8 ++ "IS_" ++ strDrop name 8) }
    else if strStarts name "PSA_KEY_USAGE_" && parameter.isNone then
      { st with key_usages := addName st.key_usages name }
    else
      -- Other macro without parameter
      st

/-- Method `MacroCollector.read_file`: fold `read_line` over the input lines. -/
def readLines (st : MacroCollector) (lines : List String) : MacroCollector :=
  lines.foldl read_line st

/-! ### Fragment rendering

Python's `sorted` on distinct strings is ascending lexicographic order by
code points, which coincides with Mathlib's linear order on `String`; it is
embedded as a stable insertion sort.  `joinSep` is Python `sep.join`. -/

def sortNames (l : List String) : List String := List.insertionSort (· ≤ ·) l

def joinSep (sep : String) : List String → String
  | [] => ""
  | [x] => x
  | x :: y :: t => x ++ sep ++ joinSep sep (y :: t)

/-- Method `make_return_case`. -/
def make_return_case (name : String) : String :=
  "case " ++ name ++ ": return \"" ++ name ++ "\";"

/-- Method `make_append_case`. -/
def make_append_case (name : String) : String :=
  "case " ++ name ++ ": append(&buffer, buffer_size, &required_size, \"" ++
    name ++ "\", " ++ Nat.repr name.length ++ "); break;"

/-- Method `make_inner_append_case`. -/
def make_inner_append_case (name : String) : String :=
  "case " ++ name ++ ": append(buffer, buffer_size, required_size, \"" ++
    name ++ "\", " ++ Nat.repr name.length ++ "); break;"

/-- Template `bit_test_template % {var, flag, length}` (braces of the C text written
as their character codes). -/
def make_bit_test (var flag : String) : String :=
  "    if (" ++ var ++ " & " ++ flag ++ ") \x7b\n" ++
  "        if (required_size != 0) \x7b\n" ++
  "            append(&buffer, buffer_size, &required_size, \" | \", 3);\n" ++
  "        \x7d\n" ++
  "        append(&buffer, buffer_size, &required_size, \"" ++ flag ++ "\", " ++
    Nat.repr flag.length ++ ");\n" ++
  "        " ++ var ++ " ^= " ++ flag ++ ";\n" ++
  "    \x7d"

/-- Template `key_type_from_curve_template % {builder, builder_length, tester}`. -/
def make_key_type_from_curve_code (builder tester : String) : String :=
  "if (" ++ tester ++ "(type)) \x7b\n" ++
  "        append_with_curve(&buffer, buffer_size, &required_size,\n" ++
  "                          \"" ++ builder ++ "\", " ++ Nat.repr builder.length ++ ",\n" ++
  "                          PSA_KEY_TYPE_GET_CURVE(type));\n" ++
  "    \x7d else "

/-- Template `algorithm_from_hash_template % {builder, builder_length, tester}`. -/
def make_algorithm_from_hash_code (builder tester : String) : String :=
  "if (" ++ tester ++ "(alg_without_padding)) \x7b\n" ++
  "        append_with_hash(&buffer, buffer_size, &required_size,\n" ++
  "                         \"" ++ builder ++ "\", " ++ Nat.repr builder.length ++ ",\n" ++
  "                         PSA_ALG_GET_HASH(alg_without_padding));\n" ++
  "    \x7d else "

/-- Method `make_status_cases`. -/
def make_status_cases (c : MacroCollector) : String :=
  joinSep "\n    " ((sortNames c.statuses).map make_return_case)

/-- Method `make_ecc_curve_cases`. -/
def make_ecc_curve_cases (c : MacroCollector) : String :=
  joinSep "\n    " ((sortNames c.ecc_curves).map make_return_case)

/-- Method `make_key_type_cases`. -/
def make_key_type_cases (c : MacroCollector) : String :=
  joinSep "\n    " ((sortNames c.key_types).map make_append_case)

/-- Method `make_key_type_code`. -/
def make_key_type_code (c : MacroCollector) : String :=
  joinSep "\n        "
    ((sortNames (dictKeys c.key_types_from_curve)).map
      (fun k => make_key_type_from_curve_code k (dictGet c.key_types_from_curve k)))

/-- Method `make_hash_algorithm_cases`. -/
def make_hash_algorithm_cases (c : MacroCollector) : String :=
  joinSep "\n    " ((sortNames c.hash_algorithms).map make_return_case)

/-- Method `make_padding_mode_cases`. -/
def make_padding_mode_cases (c : MacroCollector) : String :=
  joinSep "\n    " ((sortNames c.block_cipher_padding_modes).map make_inner_append_case)

/-- Method `make_algorithm_cases`. -/
def make_algorithm_cases (c : MacroCollector) : String :=
  joinSep "\n    " ((sortNames c.algorithms).map make_append_case)

/-- Method `make_algorithm_code`. -/
def make_algorithm_code (c : MacroCollector) : String :=
  joinSep "\n        "
    ((sortNames (dictKeys c.algorithms_from_hash)).map
      (fun k => make_algorithm_from_hash_code k (dictGet c.algorithms_from_hash k)))

/-- Method `make_key_usage_code`. -/
def make_key_usage_code (c : MacroCollector) : String :=
  joinSep "\n" ((sortNames c.key_usages).map (fun bit => make_bit_test "usage" bit))

/-- Method `MacroCollector.write_file`: the interpolation data built from the
collector, as the association list assembled in the source.  The surrounding
`output_template` is a fixed string constant independent of the input, so the
generated file is `output_template % write_file c` and is byte-for-byte
determined by this data. -/
def write_file (c : MacroCollector) : List (String × String) :=
  [("status_cases", make_status_cases c),
   ("ecc_curve_cases", make_ecc_curve_cases c),
   ("key_type_cases", make_key_type_cases c),
   ("key_type_code", make_key_type_code c),
   ("hash_algorithm_cases", make_hash_algorithm_cases c),
   ("padding_mode_cases", make_padding_mode_cases c),
   ("algorithm_cases", make_algorithm_cases c),
   ("algorithm_code", make_algorithm_code c),
   ("key_usage_code", make_key_usage_code c)]

/-! ### File orchestration

`generate_psa_constants` reads the header, writes the rendered output to
`output_file_name + '.tmp'`, and only then renames the temporary file onto the
final path.  The I/O is embedded as the ordered trace of file-system
operations the function performs; the input file's contents are the given
line list.  A run that fails partway executes only a prefix of the trace. -/

inductive FsOp where
  | readF (path : String)
  | writeF (path : String) (content : List (String × String))
  | renameF (src dst : String)
deriving DecidableEq, Repr

/-- A file system: map from path to content (the content of the generated
file is identified with its interpolation data). -/
def Fs : Type := String → Option (List (String × String))

/-- Effect of one file-system operation. -/
def fsApply (fs : Fs) : FsOp → Fs
  | .readF _ => fs
  | .writeF p c => fun q => if q = p then some c else fs q
  | .renameF s d => fun q => if q = d then fs s else if q = s then none else fs q

/-- Effect of a sequence of operations. -/
def runOps (fs : Fs) (ops : List FsOp) : Fs := ops.foldl fsApply fs

/-- Function `generate_psa_constants(header_file_name, output_file_name)`: collect from
the header (whose lines are `input`), write everything to the temporary path,
then rename it onto the output path. -/
def generate_psa_constants (header_file_name output_file_name : String)
    (input : List String) : List FsOp :=
  [FsOp.readF header_file_name,
   FsOp.writeF (output_file_name ++ ".tmp") (write_file (readLines emptyCollector input)),
   FsOp.renameF (output_file_name ++ ".tmp") output_file_name]

/-- All nine buckets are duplicate-free (for the dicts: their key lists).
This invariant mirrors Python sets and dicts, whose elements/keys are unique
by construction. -/
def WF (c : MacroCollector) : Prop :=
  c.statuses.Nodup ∧ c.key_types.Nodup ∧ (dictKeys c.key_types_from_curve).Nodup ∧
  c.ecc_curves.Nodup ∧ c.algorithms.Nodup ∧ c.hash_algorithms.Nodup ∧
  c.block_cipher_padding_modes.Nodup ∧ (dictKeys c.algorithms_from_hash).Nodup ∧
  c.key_usages.Nodup

/-! ### Basic facts about the set and dict operations -/

theorem mem_addName_iff (s : List String) (n m : String) :
    m ∈ addName s n ↔ m ∈ s ∨ m = n := by
  by_cases h : n ∈ s
  · simp only [addName, if_pos h]
    exact ⟨Or.inl, fun hm => hm.elim id (fun e => e ▸ h)⟩
  · simp [addName, if_neg h]

theorem mem_addName_self (s : List String) (n : String) : n ∈ addName s n :=
  (mem_addName_iff s n n).mpr (Or.inr rfl)

theorem mem_addName_of_mem (s : List String) (n m : String) (h : m ∈ s) :
    m ∈ addName s n :=
  (mem_addName_iff s n m).mpr (Or.inl h)

theorem addName_idem (s : List String) (n : String) :
    addName (addName s n) n = addName s n := by
  unfold addName
  by_cases hn : n ∈ s
  · simp [hn]
  · simp [hn]

theorem addName_nodup (s : List String) (n : String) (h : s.Nodup) :
    (addName s n).Nodup := by
  by_cases hn : n ∈ s
  · simpa [addName, if_pos hn] using h
  · simp [addName, if_neg hn, List.nodup_append, h, hn]

theorem dictLookup_none_forall (d : List (String × String)) (k : String) :
    dictLookup d k = none → ∀ p ∈ d, p.1 ≠ k := by
  induction d with
  | nil => intro _ p hp; cases hp
  | cons q t ih =>
    obtain ⟨a, b⟩ := q
    intro h p hp
    by_cases ha : a = k
    · rw [dictLookup, if_pos ha] at h; cases h
    · rw [dictLookup, if_neg ha] at h
      rcases List.mem_cons.mp hp with rfl | hp2
      · exact ha
      · exact ih h p hp2

theorem dictLookup_append_none (d e : List (String × String)) (k : String) :
    dictLookup d k = none → dictLookup (d ++ e) k = dictLookup e k := by
  induction d with
  | nil => intro _; rfl
  | cons q t ih =>
    obtain ⟨a, b⟩ := q
    intro h
    by_cases ha : a = k
    · rw [dictLookup, if_pos ha] at h; cases h
    · rw [dictLookup, if_neg ha] at h
      rw [List.cons_append, dictLookup, if_neg ha]
      exact ih h

theorem dictLookup_map_isSome (d : List (String × String)) (k v : String) :
    (dictLookup (d.map (fun p => if p.1 = k then (k, v) else p)) k).isSome =
      (dictLookup d k).isSome := by
  induction d with
  | nil => rfl
  | cons q t ih =>
    obtain ⟨a, b⟩ := q
    rw [List.map_cons]
    by_cases ha : a = k
    · have hh : (if ((a, b) : String × String).1 = k then (k, v) else (a, b)) = (k, v) :=
        if_pos ha
      rw [hh]
      simp only [dictLookup]
      simp [ha]
    · have hh : (if ((a, b) : String × String).1 = k then (k, v) else (a, b)) = (a, b) :=
        if_neg ha
      rw [hh]
      simp only [dictLookup]
      rw [if_neg ha, if_neg ha]
      exact ih

theorem dictInsert_idem (d : List (String × String)) (k v : String) :
    dictInsert (dictInsert d k v) k v = dictInsert d k v := by
  by_cases h : (dictLookup d k).isSome
  · have h1 : dictInsert d k v = d.map (fun p => if p.1 = k then (k, v) else p) := by
      simp [dictInsert, if_pos h]
    rw [h1]
    have h2 : (dictLookup (d.map (fun p => if p.1 = k then (k, v) else p)) k).isSome := by
      rw [dictLookup_map_isSome]; exact h
    rw [dictInsert, if_pos h2, List.map_map]
    apply List.map_congr_left
    intro p _
    by_cases hp : p.1 = k <;> simp [Function.comp, hp]
  · have hn : dictLookup d k = none := by
      cases hl : dictLookup d k
      · rfl
      · simp [hl] at h
    have h1 : dictInsert d k v = d ++ [(k, v)] := by
      simp [dictInsert, hn]
    rw [h1]
    have h2 : dictLookup (d ++ [(k, v)]) k = some v := by
      rw [dictLookup_append_none _ _ _ hn]; simp [dictLookup]
    rw [dictInsert, if_pos (by simp [h2]), List.map_append]
    have h3 : d.map (fun p => if p.1 = k then (k, v) else p) = d := by
      conv_rhs => rw [← List.map_id d]
      apply List.map_congr_left
      intro p hp
      simp [dictLookup_none_forall d k hn p hp]
    rw [h3]; simp

theorem dictKeys_dictInsert (d : List (String × String)) (k v : String) :
    dictKeys (dictInsert d k v) =
      if (dictLookup d k).isSome then dictKeys d else dictKeys d ++ [k] := by
  by_cases h : (dictLookup d k).isSome
  · simp only [dictInsert, if_pos h, dictKeys, List.map_map]
    apply List.map_congr_left
    intro p _
    by_cases hp : p.1 = k <;> simp [Function.comp, hp]
  · simp [dictInsert, if_neg h, dictKeys, List.map_append]

theorem not_mem_dictKeys_of_none (d : List (String × String)) (k : String)
    (h : dictLookup d k = none) : k ∉ dictKeys d := by
  intro hk
  obtain ⟨p, hp, he⟩ := List.mem_map.mp hk
  exact dictLookup_none_forall d k h p hp he

theorem dictKeys_nodup_dictInsert (d : List (String × String)) (k v : String)
    (h : (dictKeys d).Nodup) : (dictKeys (dictInsert d k v)).Nodup := by
  rw [dictKeys_dictInsert]
  by_cases hs : (dictLookup d k).isSome
  · simpa [if_pos hs] using h
  · have hn : dictLookup d k = none := by
      cases hl : dictLookup d k
      · rfl
      · simp [hl] at hs
    simp [if_neg hs, List.nodup_append, h, not_mem_dictKeys_of_none d k hn]

/-! ### Prefix facts -/

theorem listLeads_iff_take (p s : List Char) :
    listLeads p s = true ↔ s.take p.length = p := by
  induction p generalizing s with
  | nil => simp [listLeads]
  | cons a p ih =>
    cases s with
    | nil => simp [listLeads]
    | cons b s =>
      simp only [listLeads, Bool.and_eq_true, beq_iff_eq, List.length_cons,
        List.take_succ_cons, List.cons.injEq, ih]
      exact ⟨fun ⟨h1, h2⟩ => ⟨h1.symm, h2⟩, fun ⟨h1, h2⟩ => ⟨h1.symm, h2⟩⟩

/-- A string cannot start with two incompatible literals: if it starts with
`p`, and `q` does not extend `p`, it does not start with `q`. -/
theorem strStarts_conflict (name p q : String) (hp : strStarts name p = true)
    (hlen : p.data.length ≤ q.data.length)
    (hne : q.data.take p.data.length ≠ p.data) : strStarts name q = false := by
  cases hq : strStarts name q with
  | false => rfl
  | true =>
    exfalso
    apply hne
    have h1 := (listLeads_iff_take _ _).mp hp
    have h2 := (listLeads_iff_take _ _).mp hq
    calc q.data.take p.data.length
        = (name.data.take q.data.length).take p.data.length := by rw [h2]
      _ = name.data.take (min p.data.length q.data.length) := by rw [List.take_take]
      _ = name.data.take p.data.length := by rw [Nat.min_eq_left hlen]
      _ = p.data := h1

/-! ### The hash pattern -/

theorem hashSearch_of_has55 (l : List Char)
    (h : listHas "0x01000055".data l = true) : hashSearch l = true := by
  induction l with
  | nil => simp [listHas] at h
  | cons c t ih =>
    rw [listHas, Bool.or_eq_true] at h
    rcases h with h | h
    · rw [listLeads_iff_take] at h
      have hsplit : c :: t = "0x01000055".data ++ (c :: t).drop ("0x01000055".data.length) := by
        conv_lhs => rw [← List.take_append_drop ("0x01000055".data.length) (c :: t)]
        rw [h]
      rw [hsplit]
      simp [hashSearch, hashHere, show hexDig '5' = true from rfl]
    · simp [hashSearch, ih h]

/-! ### The nodup invariant -/

theorem WF_empty : WF emptyCollector := by
  refine ⟨?_, ?_, ?_, ?_, ?_, ?_, ?_, ?_, ?_⟩ <;> simp [emptyCollector, dictKeys]

/-- Case analysis on one `read_line` step: the collector is either unchanged
or updated in exactly the single bucket picked by the classifier's first
matching clause — except the parameterless-`PSA_ALG_` clause, which may add
the name to `algorithms` and `hash_algorithms` together. -/
theorem read_line_shape (st : MacroCollector) (line : String) :
    read_line st line = st ∨
    (∃ n, read_line st line = { st with statuses := addName st.statuses n }) ∨
    (∃ n, read_line st line = { st with key_types := addName st.key_types n }) ∨
    (∃ n v, read_line st line =
        { st with key_types_from_curve := dictInsert st.key_types_from_curve n v }) ∨
    (∃ n, read_line st line = { st with ecc_curves := addName st.ecc_curves n }) ∨
    (∃ n, read_line st line =
        { st with block_cipher_padding_modes := addName st.block_cipher_padding_modes n }) ∨
    (∃ n, read_line st line = { st with algorithms := addName st.algorithms n,
                                        hash_algorithms := addName st.hash_algorithms n }) ∨
    (∃ n, read_line st line = { st with algorithms := addName st.algorithms n }) ∨
    (∃ n v, read_line st line =
        { st with algorithms_from_hash := dictInsert st.algorithms_from_hash n v }) ∨
    (∃ n, read_line st line = { st with key_usages := addName st.key_usages n }) := by
  unfold read_line
  cases hp : parseLine line with
  | none => exact Or.inl rfl
  | some v =>
    obtain ⟨name, param, d⟩ := v
    dsimp only
    by_cases h1 : (strEnds name "_FLAG" || strEnds name "MASK") = true
    · rw [if_pos h1]; exact Or.inl rfl
    · rw [if_neg h1]
      by_cases h2 : ((strStarts name "PSA_ERROR_" || name == "PSA_SUCCESS") && param.isNone) = true
      · rw [if_pos h2]; exact Or.inr (Or.inl ⟨name, rfl⟩)
      · rw [if_neg h2]
        by_cases h3 : (strStarts name "PSA_KEY_TYPE_" && param.isNone) = true
        · rw [if_pos h3]; exact Or.inr (Or.inr (Or.inl ⟨name, rfl⟩))
        · rw [if_neg h3]
          by_cases h4 : (strStarts name "PSA_KEY_TYPE_" && param == some "curve") = true
          · rw [if_pos h4]
            exact Or.inr (Or.inr (Or.inr (Or.inl ⟨name, _, rfl⟩)))
          · rw [if_neg h4]
            by_cases h5 : (strStarts name "PSA_ECC_CURVE_" && param.isNone) = true
            · rw [if_pos h5]
              exact Or.inr (Or.inr (Or.inr (Or.inr (Or.inl ⟨name, rfl⟩))))
            · rw [if_neg h5]
              by_cases h6 : (strStarts name "PSA_ALG_BLOCK_CIPHER_PAD_" && param.isNone) = true
              · rw [if_pos h6]
                exact Or.inr (Or.inr (Or.inr (Or.inr (Or.inr (Or.inl ⟨name, rfl⟩)))))
              · rw [if_neg h6]
                by_cases h7 : (strStarts name "PSA_ALG_" && param.isNone) = true
                · rw [if_pos h7]
                  by_cases h7a : (name == "PSA_ALG_BLOCK_CIPHER_BASE" ||
                      name == "PSA_ALG_ECDSA_BASE" ||
                      name == "PSA_ALG_RSA_PKCS1V15_SIGN_BASE") = true
                  · rw [if_pos h7a]; exact Or.inl rfl
                  · rw [if_neg h7a]
                    by_cases h7b : hashSearch d.data = true
                    · rw [if_pos h7b]
                      exact Or.inr (Or.inr (Or.inr (Or.inr (Or.inr (Or.inr
                        (Or.inl ⟨name, rfl⟩))))))
                    · rw [if_neg h7b]
                      exact Or.inr (Or.inr (Or.inr (Or.inr (Or.inr (Or.inr (Or.inr
                        (Or.inl ⟨name, rfl⟩)))))))
                · rw [if_neg h7]
                  by_cases h8 : (strStarts name "PSA_ALG_" && param == some "hash_alg") = true
                  · rw [if_pos h8]
                    by_cases h8a : (name == "PSA_ALG_DSA" || name == "PSA_ALG_ECDSA") = true
                    · rw [if_pos h8a]
                      exact Or.inr (Or.inr (Or.inr (Or.inr (Or.inr (Or.inr (Or.inr
                        (Or.inr (Or.inl ⟨name, _, rfl⟩))))))))
                    · rw [if_neg h8a]
                      exact Or.inr (Or.inr (Or.inr (Or.inr (Or.inr (Or.inr (Or.inr
                        (Or.inr (Or.inl ⟨name, _, rfl⟩))))))))
                  · rw [if_neg h8]
                    by_cases h9 : (strStarts name "PSA_KEY_USAGE_" && param.isNone) = true
                    · rw [if_pos h9]
                      exact Or.inr (Or.inr (Or.inr (Or.inr (Or.inr (Or.inr (Or.inr
                        (Or.inr (Or.inr ⟨name, rfl⟩))))))))
                    · rw [if_neg h9]; exact Or.inl rfl

theorem WF_read_line (st : MacroCollector) (line : String) (h : WF st) :
    WF (read_line st line) := by
  obtain ⟨h1, h2, h3, h4, h5, h6, h7, h8, h9⟩ := h
  rcases read_line_shape st line with he | ⟨n, he⟩ | ⟨n, he⟩ | ⟨n, v, he⟩ | ⟨n, he⟩ |
    ⟨n, he⟩ | ⟨n, he⟩ | ⟨n, he⟩ | ⟨n, v, he⟩ | ⟨n, he⟩ <;> rw [he]
  · exact ⟨h1, h2, h3, h4, h5, h6, h7, h8, h9⟩
  · exact ⟨addName_nodup _ _ h1, h2, h3, h4, h5, h6, h7, h8, h9⟩
  · exact ⟨h1, addName_nodup _ _ h2, h3, h4, h5, h6, h7, h8, h9⟩
  · exact ⟨h1, h2, dictKeys_nodup_dictInsert _ _ _ h3, h4, h5, h6, h7, h8, h9⟩
  · exact ⟨h1, h2, h3, addName_nodup _ _ h4, h5, h6, h7, h8, h9⟩
  · exact ⟨h1, h2, h3, h4, h5, h6, addName_nodup _ _ h7, h8, h9⟩
  · exact ⟨h1, h2, h3, h4, addName_nodup _ _ h5, addName_nodup _ _ h6, h7, h8, h9⟩
  · exact ⟨h1, h2, h3, h4, addName_nodup _ _ h5, h6, h7, h8, h9⟩
  · exact ⟨h1, h2, h3, h4, h5, h6, h7, dictKeys_nodup_dictInsert _ _ _ h8, h9⟩
  · exact ⟨h1, h2, h3, h4, h5, h6, h7, h8, addName_nodup _ _ h9⟩

theorem WF_readLines (lines : List String) : WF (readLines emptyCollector lines) := by
  suffices h : ∀ st, WF st → WF (readLines st lines) from h _ WF_empty
  induction lines with
  | nil => intro st h; exact h
  | cons a t ih => intro st h; exact ih _ (WF_read_line _ _ h)

/-! ### Sorting -/

theorem sortNames_sorted_lt (l : List String) (h : l.Nodup) :
    List.Sorted (· < ·) (sortNames l) := by
  have hs : List.Sorted (· ≤ ·) (sortNames l) := List.sorted_insertionSort _ _
  have hperm : List.Perm l (sortNames l) := (List.perm_insertionSort _ _).symm
  exact hs.lt_of_le (hperm.nodup h)

/-! ### The claims -/

/-- Claim C3: the spec states that a trailing `/*` or `//` comment opener is
discarded from the extracted definition text.  The code does not do this: the
greedy `(.+)` group consumes the whole remainder of the line and the trailing
`(?:/[*/])?` group always matches the empty string, so the comment opener (and
any comment text before the end of the line) stays inside the extracted
definition text.  Evaluated here on two concrete header lines. -/
theorem C3_comment_opener_kept :
    parseLine "#define PSA_ALG_X 1 /*" = some ("PSA_ALG_X", none, "1 /*") ∧
    parseLine "#define PSA_ALG_Y 12 /* 0x01000055 */" =
      some ("PSA_ALG_Y", none, "12 /* 0x01000055 */") :=
  ⟨by decide, by decide⟩

/-- Claim C9: a line that does not match the macro-definition pattern leaves
every bucket of the collector unchanged (`read_line` returns the state as is,
and, being a total function, raises no error). -/
theorem C9_skip_nonmatching (st : MacroCollector) (line : String)
    (h : parseLine line = none) : read_line st line = st := by
  unfold read_line
  rw [h]

/-- Witness for C9 at a concrete multi-parameter macro line, which the
pattern rejects. -/
theorem C9_witness :
    read_line emptyCollector "#define MIN(a, b) ((a) < (b) ? (a) : (b))" = emptyCollector :=
  C9_skip_nonmatching emptyCollector "#define MIN(a, b) ((a) < (b) ? (a) : (b))" (by decide)

/-- Claim C10: `read_line` is idempotent: feeding the same line twice in
succession produces the same collector state as feeding it once, because
`set.add` of a present element and re-assignment of a dict key are no-ops. -/
theorem C10_read_line_idempotent (st : MacroCollector) (line : String) :
    read_line (read_line st line) line = read_line st line := by
  unfold read_line
  cases hp : parseLine line with
  | none => rfl
  | some v =>
    obtain ⟨name, param, d⟩ := v
    dsimp only
    by_cases h1 : (strEnds name "_FLAG" || strEnds name "MASK") = true
    · rw [if_pos h1]
    · rw [if_neg h1, if_neg h1]
      by_cases h2 : ((strStarts name "PSA_ERROR_" || name == "PSA_SUCCESS") && param.isNone) = true
      · rw [if_pos h2, if_pos h2]; simp [addName_idem]
      · rw [if_neg h2, if_neg h2]
        by_cases h3 : (strStarts name "PSA_KEY_TYPE_" && param.isNone) = true
        · rw [if_pos h3, if_pos h3]; simp [addName_idem]
        · rw [if_neg h3, if_neg h3]
          by_cases h4 : (strStarts name "PSA_KEY_TYPE_" && param == some "curve") = true
          · rw [if_pos h4, if_pos h4]; simp [dictInsert_idem]
          · rw [if_neg h4, if_neg h4]
            by_cases h5 : (strStarts name "PSA_ECC_CURVE_" && param.isNone) = true
            · rw [if_pos h5, if_pos h5]; simp [addName_idem]
            · rw [if_neg h5, if_neg h5]
              by_cases h6 : (strStarts name "PSA_ALG_BLOCK_CIPHER_PAD_" && param.isNone) = true
              · rw [if_pos h6, if_pos h6]; simp [addName_idem]
              · rw [if_neg h6, if_neg h6]
                by_cases h7 : (strStarts name "PSA_ALG_" && param.isNone) = true
                · rw [if_pos h7, if_pos h7]
                  by_cases h7a : (name == "PSA_ALG_BLOCK_CIPHER_BASE" ||
                      name == "PSA_ALG_ECDSA_BASE" ||
                      name == "PSA_ALG_RSA_PKCS1V15_SIGN_BASE") = true
                  · rw [if_pos h7a]
                  · rw [if_neg h7a, if_neg h7a]
                    by_cases h7b : hashSearch d.data = true
                    · rw [if_pos h7b, if_pos h7b]; simp [addName_idem]
                    · rw [if_neg h7b, if_neg h7b]; simp [addName_idem]
                · rw [if_neg h7, if_neg h7]
                  by_cases h8 : (strStarts name "PSA_ALG_" && param == some "hash_alg") = true
                  · rw [if_pos h8, if_pos h8]
                    by_cases h8a : (name == "PSA_ALG_DSA" || name == "PSA_ALG_ECDSA") = true
                    · rw [if_pos h8a, if_pos h8a]; simp [dictInsert_idem]
                    · rw [if_neg h8a, if_neg h8a]; simp [dictInsert_idem]
                  · rw [if_neg h8, if_neg h8]
                    by_cases h9 : (strStarts name "PSA_KEY_USAGE_" && param.isNone) = true
                    · rw [if_pos h9, if_pos h9]; simp [addName_idem]
                    · rw [if_neg h9, if_neg h9]

/-- Claim C1 (amended): a macro name ending in `_FLAG` or ending in `MASK` is
filed into no bucket: the state is returned unchanged.  (The claim's original
"contains `MASK` anywhere" form is refuted by `C1_counterexample`.) -/
theorem C1_masking_exclusion (st : MacroCollector) (line name : String)
    (p : Option String) (d : String)
    (hp : parseLine line = some (name, p, d))
    (h : strEnds name "_FLAG" = true ∨ strEnds name "MASK" = true) :
    read_line st line = st := by
  unfold read_line
  rw [hp]
  rcases h with h | h <;> simp [h]

/-- Witness for C1 at a concrete `MASK`-suffixed line. -/
theorem C1_witness :
    read_line emptyCollector "#define PSA_ALG_HASH_MASK ((psa_algorithm_t)0x000000ff)" =
      emptyCollector :=
  C1_masking_exclusion emptyCollector
    "#define PSA_ALG_HASH_MASK ((psa_algorithm_t)0x000000ff)"
    "PSA_ALG_HASH_MASK" none "((psa_algorithm_t)0x000000ff)"
    (by decide) (Or.inr (by decide))

/-- Counterexample to C1 as stated: `PSA_ALG_MASKED` contains `MASK` (but does
not end in `MASK` or `_FLAG`), yet `read_line` files it into `algorithms`, so
it does appear in a rendered fragment.  The code tests `endswith('MASK')`,
not containment. -/
theorem C1_counterexample :
    listHas "MASK".data "PSA_ALG_MASKED".data = true ∧
    strEnds "PSA_ALG_MASKED" "MASK" = false ∧
    (read_line emptyCollector "#define PSA_ALG_MASKED 1").algorithms = ["PSA_ALG_MASKED"] :=
  ⟨by decide, by decide, by decide⟩

/-- Claim C6: the three ad-hoc base-value names match the generic `PSA_ALG_`
prefix rule but are filed into no bucket at all. -/
theorem C6_base_names_excluded (st : MacroCollector) (line d name : String)
    (hp : parseLine line = some (name, none, d))
    (h : name = "PSA_ALG_BLOCK_CIPHER_BASE" ∨ name = "PSA_ALG_ECDSA_BASE" ∨
         name = "PSA_ALG_RSA_PKCS1V15_SIGN_BASE") :
    strStarts name "PSA_ALG_" = true ∧ read_line st line = st := by
  unfold read_line
  rw [hp]
  rcases h with rfl | rfl | rfl <;> exact ⟨rfl, rfl⟩

/-- Witness for C6 at a concrete base-value line. -/
theorem C6_witness :
    strStarts "PSA_ALG_ECDSA_BASE" "PSA_ALG_" = true ∧
    read_line emptyCollector "#define PSA_ALG_ECDSA_BASE ((psa_algorithm_t)0x10060000)" =
      emptyCollector :=
  C6_base_names_excluded emptyCollector
    "#define PSA_ALG_ECDSA_BASE ((psa_algorithm_t)0x10060000)"
    "((psa_algorithm_t)0x10060000)" "PSA_ALG_ECDSA_BASE"
    (by decide) (Or.inr (Or.inl rfl))

/-- Claim C4: for a parameterless `PSA_ALG_` macro not excluded by an earlier
rule, a definition text containing the literal `0x01000055` puts the name into
`hash_algorithms`, while a definition containing `0x02000055` and no other
match of the one-byte hash-id pattern leaves `hash_algorithms` unchanged. -/
theorem C4_hash_detection (st : MacroCollector) (line name d : String)
    (hp : parseLine line = some (name, none, d))
    (halg : strStarts name "PSA_ALG_" = true)
    (hf : strEnds name "_FLAG" = false) (hm : strEnds name "MASK" = false)
    (hpad : strStarts name "PSA_ALG_BLOCK_CIPHER_PAD_" = false)
    (hb1 : name ≠ "PSA_ALG_BLOCK_CIPHER_BASE") (hb2 : name ≠ "PSA_ALG_ECDSA_BASE")
    (hb3 : name ≠ "PSA_ALG_RSA_PKCS1V15_SIGN_BASE") :
    (listHas "0x01000055".data d.data = true →
        name ∈ (read_line st line).hash_algorithms) ∧
    (listHas "0x02000055".data d.data = true → hashSearch d.data = false →
        (read_line st line).hash_algorithms = st.hash_algorithms) := by
  have herr : strStarts name "PSA_ERROR_" = false :=
    strStarts_conflict name "PSA_ALG_" "PSA_ERROR_" halg (by decide) (by decide)
  have hkt : strStarts name "PSA_KEY_TYPE_" = false :=
    strStarts_conflict name "PSA_ALG_" "PSA_KEY_TYPE_" halg (by decide) (by decide)
  have hecc : strStarts name "PSA_ECC_CURVE_" = false :=
    strStarts_conflict name "PSA_ALG_" "PSA_ECC_CURVE_" halg (by decide) (by decide)
  have hsucc : (name == "PSA_SUCCESS") = false := by
    rw [beq_eq_false_iff_ne]
    intro h
    subst h
    exact absurd halg (by decide)
  unfold read_line
  rw [hp]
  dsimp only
  have n1 : ¬((strEnds name "_FLAG" || strEnds name "MASK") = true) := by simp [hf, hm]
  rw [if_neg n1]
  have n2 : ¬(((strStarts name "PSA_ERROR_" || name == "PSA_SUCCESS") &&
      (none : Option String).isNone) = true) := by simp [herr, hsucc]
  rw [if_neg n2]
  have n3 : ¬((strStarts name "PSA_KEY_TYPE_" && (none : Option String).isNone) = true) := by
    simp [hkt]
  rw [if_neg n3]
  have n4 : ¬((strStarts name "PSA_KEY_TYPE_" &&
      ((none : Option String) == some "curve")) = true) := by simp [hkt]
  rw [if_neg n4]
  have n5 : ¬((strStarts name "PSA_ECC_CURVE_" && (none : Option String).isNone) = true) := by
    simp [hecc]
  rw [if_neg n5]
  have n6 : ¬((strStarts name "PSA_ALG_BLOCK_CIPHER_PAD_" &&
      (none : Option String).isNone) = true) := by simp [hpad]
  rw [if_neg n6]
  have p7 : (strStarts name "PSA_ALG_" && (none : Option String).isNone) = true := by
    simp [halg]
  rw [if_pos p7]
  have n7a : ¬((name == "PSA_ALG_BLOCK_CIPHER_BASE" || name == "PSA_ALG_ECDSA_BASE" ||
      name == "PSA_ALG_RSA_PKCS1V15_SIGN_BASE") = true) := by
    simp [hb1, hb2, hb3]
  rw [if_neg n7a]
  constructor
  · intro h55
    rw [if_pos (hashSearch_of_has55 _ h55)]
    exact mem_addName_self _ _
  · intro _ hns
    have : ¬(hashSearch d.data = true) := by simp [hns]
    rw [if_neg this]

/-- Witness for C4, applying the theorem at a header line containing
`0x01000055` (classified) and one containing `0x02000055` (not classified). -/
theorem C4_witness :
    "PSA_ALG_SHA_TEST" ∈
      (read_line emptyCollector
        "#define PSA_ALG_SHA_TEST ((psa_algorithm_t)0x01000055)").hash_algorithms ∧
    (read_line emptyCollector
        "#define PSA_ALG_AEAD_TEST ((psa_algorithm_t)0x02000055)").hash_algorithms =
      emptyCollector.hash_algorithms := by
  constructor
  · exact (C4_hash_detection emptyCollector
      "#define PSA_ALG_SHA_TEST ((psa_algorithm_t)0x01000055)"
      "PSA_ALG_SHA_TEST" "((psa_algorithm_t)0x01000055)"
      (by decide) (by decide) (by decide) (by decide) (by decide)
      (by decide) (by decide) (by decide)).1 (by decide)
  · exact (C4_hash_detection emptyCollector
      "#define PSA_ALG_AEAD_TEST ((psa_algorithm_t)0x02000055)"
      "PSA_ALG_AEAD_TEST" "((psa_algorithm_t)0x02000055)"
      (by decide) (by decide) (by decide) (by decide) (by decide)
      (by decide) (by decide) (by decide)).2 (by decide) (by decide)

/-- Claim C7 (amended): for a `PSA_ALG_` macro with single parameter
`hash_alg` whose name does not end in `_FLAG` or `MASK`, `read_line` stores in
`algorithms_from_hash` the predicate name obtained by inserting
`IS_RANDOMIZED_` after the 8-character `PSA_ALG_` prefix for the two irregular
names and `IS_` for all others.  (The claim's original form, with no
`_FLAG`/`MASK` exclusion, is refuted by `C7_counterexample`.) -/
theorem C7_algorithms_from_hash (st : MacroCollector) (line name d : String)
    (hp : parseLine line = some (name, some "hash_alg", d))
    (halg : strStarts name "PSA_ALG_" = true)
    (hf : strEnds name "_FLAG" = false) (hm : strEnds name "MASK" = false) :
    strTake name 8 = "PSA_ALG_" ∧
    (read_line st line).algorithms_from_hash =
      (if name = "PSA_ALG_DSA" ∨ name = "PSA_ALG_ECDSA" then
        dictInsert st.algorithms_from_hash name
          (strTake name 8 ++ "IS_RANDOMIZED_" ++ strDrop name 8)
      else
        dictInsert st.algorithms_from_hash name
          (strTake name 8 ++ "IS_" ++ strDrop name 8)) := by
  constructor
  · have h8 : name.data.take 8 = "PSA_ALG_".data := (listLeads_iff_take _ _).mp halg
    simpa [strTake] using congrArg String.mk h8
  · unfold read_line
    rw [hp]
    dsimp only
    have n1 : ¬((strEnds name "_FLAG" || strEnds name "MASK") = true) := by simp [hf, hm]
    rw [if_neg n1]
    have n2 : ¬(((strStarts name "PSA_ERROR_" || name == "PSA_SUCCESS") &&
        (some "hash_alg" : Option String).isNone) = true) := by simp
    rw [if_neg n2]
    have n3 : ¬((strStarts name "PSA_KEY_TYPE_" &&
        (some "hash_alg" : Option String).isNone) = true) := by simp
    rw [if_neg n3]
    have e4 : ((some "hash_alg" : Option String) == some "curve") = false := by decide
    have n4 : ¬((strStarts name "PSA_KEY_TYPE_" &&
        ((some "hash_alg" : Option String) == some "curve")) = true) := by simp [e4]
    rw [if_neg n4]
    have n5 : ¬((strStarts name "PSA_ECC_CURVE_" &&
        (some "hash_alg" : Option String).isNone) = true) := by simp
    rw [if_neg n5]
    have n6 : ¬((strStarts name "PSA_ALG_BLOCK_CIPHER_PAD_" &&
        (some "hash_alg" : Option String).isNone) = true) := by simp
    rw [if_neg n6]
    have n7 : ¬((strStarts name "PSA_ALG_" &&
        (some "hash_alg" : Option String).isNone) = true) := by simp
    rw [if_neg n7]
    have p8 : (strStarts name "PSA_ALG_" &&
        ((some "hash_alg" : Option String) == some "hash_alg")) = true := by simp [halg]
    rw [if_pos p8]
    by_cases hd : name = "PSA_ALG_DSA" ∨ name = "PSA_ALG_ECDSA"
    · have hb : (name == "PSA_ALG_DSA" || name == "PSA_ALG_ECDSA") = true := by
        rcases hd with rfl | rfl <;> simp
      rw [if_pos hb, if_pos hd]
    · have hb : ¬((name == "PSA_ALG_DSA" || name == "PSA_ALG_ECDSA") = true) := by
        simp only [Bool.or_eq_true, beq_iff_eq]
        exact hd
      rw [if_neg hb, if_neg hd]

/-- Counterexample to C7 as stated: `PSA_ALG_TEST_FLAG` starts with `PSA_ALG_`
and has the single parameter `hash_alg`, yet `read_line` stores nothing,
because the `_FLAG` suffix rule fires first. -/
theorem C7_counterexample :
    parseLine "#define PSA_ALG_TEST_FLAG(hash_alg) 1" =
      some ("PSA_ALG_TEST_FLAG", some "hash_alg", "1") ∧
    strStarts "PSA_ALG_TEST_FLAG" "PSA_ALG_" = true ∧
    (read_line emptyCollector
        "#define PSA_ALG_TEST_FLAG(hash_alg) 1").algorithms_from_hash = [] :=
  ⟨by decide, by decide, by decide⟩

/-- Witness for C7 at a concrete regular line (`PSA_ALG_HMAC`) whose derived
predicate name is `PSA_ALG_IS_HMAC`. -/
theorem C7_witness :
    (read_line emptyCollector
        "#define PSA_ALG_HMAC(hash_alg) ((psa_algorithm_t)0x02800008)").algorithms_from_hash =
      [("PSA_ALG_HMAC", "PSA_ALG_IS_HMAC")] := by
  have h := (C7_algorithms_from_hash emptyCollector
    "#define PSA_ALG_HMAC(hash_alg) ((psa_algorithm_t)0x02800008)"
    "PSA_ALG_HMAC" "((psa_algorithm_t)0x02800008)"
    (by decide) (by decide) (by decide) (by decide)).2
  rw [h]
  decide

/-- One `read_line` step preserves `hash_algorithms ⊆ algorithms`: the only
clause that touches `hash_algorithms` adds the same name to `algorithms`. -/
theorem hash_subset_read_line (st : MacroCollector) (line : String)
    (h : ∀ n, n ∈ st.hash_algorithms → n ∈ st.algorithms) :
    ∀ n, n ∈ (read_line st line).hash_algorithms → n ∈ (read_line st line).algorithms := by
  rcases read_line_shape st line with he | ⟨m, he⟩ | ⟨m, he⟩ | ⟨m, v, he⟩ | ⟨m, he⟩ |
    ⟨m, he⟩ | ⟨m, he⟩ | ⟨m, he⟩ | ⟨m, v, he⟩ | ⟨m, he⟩ <;> rw [he] <;> intro n hn
  · exact h n hn
  · exact h n hn
  · exact h n hn
  · exact h n hn
  · exact h n hn
  · exact h n hn
  · rcases (mem_addName_iff st.hash_algorithms m n).mp hn with hmem | rfl
    · exact mem_addName_of_mem _ _ _ (h n hmem)
    · exact mem_addName_self _ _
  · exact mem_addName_of_mem _ _ _ (h n hn)
  · exact h n hn
  · exact h n hn

/-- Inclusion `hash_algorithms ⊆ algorithms` holds after any run from the empty
collector. -/
theorem hash_subset_readLines (lines : List String) :
    ∀ n, n ∈ (readLines emptyCollector lines).hash_algorithms →
      n ∈ (readLines emptyCollector lines).algorithms := by
  suffices hs : ∀ st, (∀ m, m ∈ st.hash_algorithms → m ∈ st.algorithms) →
      ∀ m, m ∈ (readLines st lines).hash_algorithms → m ∈ (readLines st lines).algorithms by
    exact hs emptyCollector (fun m hm => absurd hm (List.not_mem_nil m))
  induction lines with
  | nil => intro st h; exact h
  | cons a t ih => intro st h; exact ih _ (hash_subset_read_line _ _ h)

set_option maxHeartbeats 1000000 in
/-- Claim C2 (amended): each `read_line` step changes at most one bucket of
the collector — except the parameterless-`PSA_ALG_` clause, which may change
`algorithms` and `hash_algorithms` together — and, over any run from the
empty collector, `hash_algorithms` is a subset of `algorithms`, so a hash
algorithm name appears in both the `algorithms` and `hash_algorithms`
rendered sets.  (The claim's original "exactly one of the nine buckets" form
is refuted by `C2_counterexample`.) -/
theorem C2_category_exclusivity :
    (∀ (st : MacroCollector) (line : String),
        read_line st line = { st with statuses := (read_line st line).statuses } ∨
        read_line st line = { st with key_types := (read_line st line).key_types } ∨
        read_line st line =
          { st with key_types_from_curve := (read_line st line).key_types_from_curve } ∨
        read_line st line = { st with ecc_curves := (read_line st line).ecc_curves } ∨
        read_line st line =
          { st with block_cipher_padding_modes :=
              (read_line st line).block_cipher_padding_modes } ∨
        read_line st line =
          { st with algorithms_from_hash := (read_line st line).algorithms_from_hash } ∨
        read_line st line = { st with key_usages := (read_line st line).key_usages } ∨
        read_line st line = { st with algorithms := (read_line st line).algorithms,
                                      hash_algorithms := (read_line st line).hash_algorithms }) ∧
    (∀ (lines : List String) (n : String),
        n ∈ (readLines emptyCollector lines).hash_algorithms →
        n ∈ (readLines emptyCollector lines).algorithms) := by
  constructor
  · intro st line
    rcases read_line_shape st line with he | ⟨n, he⟩ | ⟨n, he⟩ | ⟨n, v, he⟩ | ⟨n, he⟩ |
      ⟨n, he⟩ | ⟨n, he⟩ | ⟨n, he⟩ | ⟨n, v, he⟩ | ⟨n, he⟩ <;> rw [he]
    · exact Or.inl rfl
    · exact Or.inl rfl
    · exact Or.inr (Or.inl rfl)
    · exact Or.inr (Or.inr (Or.inl rfl))
    · exact Or.inr (Or.inr (Or.inr (Or.inl rfl)))
    · exact Or.inr (Or.inr (Or.inr (Or.inr (Or.inl rfl))))
    · exact Or.inr (Or.inr (Or.inr (Or.inr (Or.inr (Or.inr (Or.inr rfl))))))
    · exact Or.inr (Or.inr (Or.inr (Or.inr (Or.inr (Or.inr (Or.inr rfl))))))
    · exact Or.inr (Or.inr (Or.inr (Or.inr (Or.inr (Or.inl rfl)))))
    · exact Or.inr (Or.inr (Or.inr (Or.inr (Or.inr (Or.inr (Or.inl rfl))))))
  · exact fun lines n => hash_subset_readLines lines n

/-- Counterexample to C2 as stated: the single line defining
`PSA_ALG_SHA_256` with a hash-patterned value puts the name into BOTH
`algorithms` and `hash_algorithms`, and the name occurs in both of the
corresponding rendered fragments. -/
theorem C2_counterexample :
    (read_line emptyCollector
        "#define PSA_ALG_SHA_256 ((psa_algorithm_t)0x01000009)").algorithms =
      ["PSA_ALG_SHA_256"] ∧
    (read_line emptyCollector
        "#define PSA_ALG_SHA_256 ((psa_algorithm_t)0x01000009)").hash_algorithms =
      ["PSA_ALG_SHA_256"] ∧
    listHas "PSA_ALG_SHA_256".data
      (make_algorithm_cases (read_line emptyCollector
        "#define PSA_ALG_SHA_256 ((psa_algorithm_t)0x01000009)")).data = true ∧
    listHas "PSA_ALG_SHA_256".data
      (make_hash_algorithm_cases (read_line emptyCollector
        "#define PSA_ALG_SHA_256 ((psa_algorithm_t)0x01000009)")).data = true :=
  ⟨by decide, by decide, by decide, by decide⟩

/-- Witness for C2, applying the subset half at a concrete run. -/
theorem C2_witness :
    "PSA_ALG_MD2" ∈
      (readLines emptyCollector
        ["#define PSA_ALG_MD2 ((psa_algorithm_t)0x01000001)"]).algorithms :=
  C2_category_exclusivity.2 ["#define PSA_ALG_MD2 ((psa_algorithm_t)0x01000001)"]
    "PSA_ALG_MD2" (by decide)

/-- Claim C5: generation is deterministic — in this pure embedding two runs
over the same line sequence are definitionally the same — and every rendered
category fragment lists its macro names in strictly ascending lexicographic
order (the sorted views that the nine fragment renderers map over are sorted
and duplicate-free). -/
theorem C5_deterministic_sorted_output (lines : List String) :
    write_file (readLines emptyCollector lines) =
      write_file (readLines emptyCollector lines) ∧
    List.Sorted (· < ·) (sortNames (readLines emptyCollector lines).statuses) ∧
    List.Sorted (· < ·) (sortNames (readLines emptyCollector lines).ecc_curves) ∧
    List.Sorted (· < ·) (sortNames (readLines emptyCollector lines).key_types) ∧
    List.Sorted (· < ·)
      (sortNames (dictKeys (readLines emptyCollector lines).key_types_from_curve)) ∧
    List.Sorted (· < ·) (sortNames (readLines emptyCollector lines).hash_algorithms) ∧
    List.Sorted (· < ·)
      (sortNames (readLines emptyCollector lines).block_cipher_padding_modes) ∧
    List.Sorted (· < ·) (sortNames (readLines emptyCollector lines).algorithms) ∧
    List.Sorted (· < ·)
      (sortNames (dictKeys (readLines emptyCollector lines).algorithms_from_hash)) ∧
    List.Sorted (· < ·) (sortNames (readLines emptyCollector lines).key_usages) := by
  obtain ⟨h1, h2, h3, h4, h5, h6, h7, h8, h9⟩ := WF_readLines lines
  exact ⟨rfl, sortNames_sorted_lt _ h1, sortNames_sorted_lt _ h4,
    sortNames_sorted_lt _ h2, sortNames_sorted_lt _ h3, sortNames_sorted_lt _ h6,
    sortNames_sorted_lt _ h7, sortNames_sorted_lt _ h5, sortNames_sorted_lt _ h8,
    sortNames_sorted_lt _ h9⟩

/-- Claim C8: `generate_psa_constants` writes the full rendered output to the
temporary path `output + ".tmp"` and only afterwards renames it onto the
output path.  A run aborted after any proper prefix of its operations leaves
the content at the output path untouched; the complete run installs exactly
the rendered output there. -/
theorem C8_atomic_rename (fs : Fs) (header out : String) (input : List String) :
    runOps fs ((generate_psa_constants header out input).take 1) out = fs out ∧
    runOps fs ((generate_psa_constants header out input).take 2) out = fs out ∧
    runOps fs (generate_psa_constants header out input) out =
      some (write_file (readLines emptyCollector input)) := by
  have hne : out ≠ out ++ ".tmp" := by
    intro h
    have hl := congrArg String.length h
    rw [String.length_append] at hl
    have h4 : (".tmp" : String).length = 4 := rfl
    omega
  refine ⟨rfl, ?_, ?_⟩
  · simp [runOps, generate_psa_constants, fsApply, hne]
  · simp [runOps, generate_psa_constants, fsApply]

end PsaGen
